import Mathlib

/-
Verification of the force/moment reduction taught in
`training_loads_at_centroid.ipynb`: the notebook's concrete worked
scenarios (manual component sums and numpy vector operations) are
embedded over ℚ, together with the general `reduce` contract of the
specification, and the stated properties are settled against them.
-/

namespace LoadsAtCentroid

/-- 3-vectors with rational components, standing for the notebook's
numeric triples / numpy arrays of reals. Componentwise addition,
subtraction and zero come from the product instances. -/
abbrev Vec3 := ℚ × ℚ × ℚ

/-- Cross product on 3-vectors, the semantics of `numpy.cross`:
`(ax,ay,az) × (bx,by,bz) = (ay·bz − az·by, az·bx − ax·bz, ax·by − ay·bx)`. -/
def cross3 (a b : Vec3) : Vec3 :=
  (a.2.1 * b.2.2 - a.2.2 * b.2.1,
   a.2.2 * b.1 - a.1 * b.2.2,
   a.1 * b.2.1 - a.2.1 * b.1)

/-! Scenario 1 data, notebook cell `Forces at point A / point B`. -/

def Fax : ℚ := -1200
def Fay : ℚ := 2000
def Faz : ℚ := -3000

def Fbx : ℚ := 3200
def Fby : ℚ := 1200
def Fbz : ℚ := -1200

/-- Manual component sum `Fcx = Fax + Fbx`. -/
def Fcx : ℚ := Fax + Fbx

/-- Manual component sum `Fcy = Fay + Fby`. -/
def Fcy : ℚ := Fay + Fby

/-- Manual component sum `Fcz = Faz + Fbz`. -/
def Fcz : ℚ := Faz + Fbz

/-- `Fa = array([Fax, Fay, Faz])`. -/
def Fa : Vec3 := (Fax, Fay, Faz)

/-- `Fb = array([Fbx, Fby, Fbz])`. -/
def Fb : Vec3 := (Fbx, Fby, Fbz)

/-- Vectorized force sum `Fc = Fa + Fb`. -/
def Fc : Vec3 := Fa + Fb

/-! Locations of points A, B and C, notebook moment cell. -/

def ax : ℚ := 0
def ay : ℚ := 0
def az : ℚ := 1500

def bx : ℚ := 0
def by' : ℚ := 800
def bz : ℚ := 1100

def cx : ℚ := 0
def cy : ℚ := 0
def cz : ℚ := 0

def point_a : Vec3 := (ax, ay, az)
def point_b : Vec3 := (bx, by', bz)
def point_c : Vec3 := (cx, cy, cz)

/-! Vector distance from the centroid to point A (CA) and to point B (CB):
`CA = CAx, CAy, CAz = (ax - cx, ay - cy, az - cz)`. -/

def CAx : ℚ := ax - cx
def CAy : ℚ := ay - cy
def CAz : ℚ := az - cz

def CBx : ℚ := bx - cx
def CBy : ℚ := by' - cy
def CBz : ℚ := bz - cz

def CA : Vec3 := (CAx, CAy, CAz)
def CB : Vec3 := (CBx, CBy, CBz)

/-- Manual moment component `Mcx = (-Fay * CAz) - (Fby * CBz) + (Fbz * CBy)`. -/
def Mcx : ℚ := (-Fay * CAz) - (Fby * CBz) + (Fbz * CBy)

/-- Manual moment component `Mcy = (Fax * CAz) + (Fbx * CBz)`. -/
def Mcy : ℚ := (Fax * CAz) + (Fbx * CBz)

/-- Manual moment component `Mcz = (-Fbx * CBy)`. -/
def Mcz : ℚ := (-Fbx * CBy)

/-- Vectorized moment computation `Mc = cross(CA, Fa) + cross(CB, Fb)`. -/
def Mc : Vec3 := cross3 CA Fa + cross3 CB Fb

/-- Scenario 2: `Mc_new = Mc + array([-1_500_000, 2_000_000, -3_200_000])`. -/
def Mc_new : Vec3 := Mc + ((-1500000 : ℚ), (2000000 : ℚ), (-3200000 : ℚ))

/-! The manual and vectorized moment paths, read off as functions of the
offset vectors and forces that appear free in the notebook's cells. -/

/-- The notebook's manual component formulas
`Mcx = (-Fay*CAz) - (Fby*CBz) + (Fbz*CBy)`, `Mcy = (Fax*CAz) + (Fbx*CBz)`,
`Mcz = (-Fbx*CBy)`, as a function of the two offsets and two forces. -/
def manualM (ca cb fa fb : Vec3) : Vec3 :=
  ((-fa.2.1 * ca.2.2) - (fb.2.1 * cb.2.2) + (fb.2.2 * cb.2.1),
   (fa.1 * ca.2.2) + (fb.1 * cb.2.2),
   (-fb.1 * cb.2.1))

/-- The notebook's vectorized path `Mc = cross(CA, Fa) + cross(CB, Fb)`,
as a function of the same inputs. -/
def vecM (ca cb fa fb : Vec3) : Vec3 :=
  cross3 ca fa + cross3 cb fb

/-! General reduction contract. -/

/-- Modelled from the spec: a Load is a 3D position, a 3D force vector and
an optional 3D moment vector (zero when the point carries only a force).
The repository's notebook contains only concrete instances, not this type. -/
structure Load where
  pos : Vec3
  force : Vec3
  moment : Vec3
deriving DecidableEq

/-- Modelled from the spec: the Resultant is a single force vector and a
single moment vector expressed at the reference point. -/
structure Resultant where
  force : Vec3
  moment : Vec3
deriving DecidableEq

/-- Modelled from the spec: error taxonomy of the reducer; `InvalidInput`
is raised for an empty load set. -/
inductive ReduceError where
  | InvalidInput
deriving DecidableEq

/-- Modelled from the spec: `reduce(reference, loads)` — fails with
`InvalidInput` on an empty load sequence, otherwise returns
`Fc = Σ_i F_i` and `Mc = Σ_i M_i + Σ_i ((P_i − reference) × F_i)`.
This function is absent from the repository's notebook, which carries
only its concrete worked instances. -/
def reduce (reference : Vec3) (loads : List Load) : Except ReduceError Resultant :=
  if loads.isEmpty then
    .error .InvalidInput
  else
    .ok { force := (loads.map Load.force).sum,
          moment := (loads.map fun l => l.moment + cross3 (l.pos - reference) l.force).sum }

/-- Scenario 1 load at point A (no applied moment). -/
def loadA : Load := ⟨point_a, Fa, 0⟩

/-- Scenario 1 load at point B (no applied moment). -/
def loadB : Load := ⟨point_b, Fb, 0⟩

/-- Scenario 2 load at point B, carrying the applied moment
`(-1500000, 2000000, -3200000)`. -/
def loadB_m : Load := ⟨point_b, Fb, ((-1500000 : ℚ), (2000000 : ℚ), (-3200000 : ℚ))⟩

/-- C1: in scenario 1 the vectorized `Mc` equals
`cross((0,0,1500),(-1200,2000,-3000)) + cross((0,800,1100),(3200,1200,-1200))`,
i.e. exactly `(-5280000, 1720000, -2560000)`. -/
theorem scenario1_moment :
    Mc = cross3 ((0 : ℚ), (0 : ℚ), (1500 : ℚ)) ((-1200 : ℚ), (2000 : ℚ), (-3000 : ℚ)) +
         cross3 ((0 : ℚ), (800 : ℚ), (1100 : ℚ)) ((3200 : ℚ), (1200 : ℚ), (-1200 : ℚ)) ∧
    Mc = ((-5280000 : ℚ), (1720000 : ℚ), (-2560000 : ℚ)) := by
  constructor <;>
    norm_num [Mc, CA, CB, CAx, CAy, CAz, CBx, CBy, CBz, ax, ay, az, bx, by', bz,
      cx, cy, cz, Fa, Fb, Fax, Fay, Faz, Fbx, Fby, Fbz, cross3, Prod.ext_iff]

/-- C3: in scenario 1 the resultant force is the componentwise sum of the
two applied forces, equal to `(2000, 3200, -4200)` via both the manual
component sums and the vector addition `Fc = Fa + Fb`. -/
theorem scenario1_force :
    Fc = ((2000 : ℚ), (3200 : ℚ), (-4200 : ℚ)) ∧
    Fc = (Fcx, Fcy, Fcz) ∧
    Fc = Fa + Fb := by
  refine ⟨?_, ?_, rfl⟩ <;>
    norm_num [Fc, Fa, Fb, Fcx, Fcy, Fcz, Fax, Fay, Faz, Fbx, Fby, Fbz, Prod.ext_iff]

/-- The cross product with a zero left operand is the zero vector. -/
theorem cross3_zero_left (b : Vec3) : cross3 0 b = 0 := by
  simp [cross3, Prod.ext_iff]

/-- C2 counterexample: the notebook's manual component formulas and its
vectorized cross-product computation, evaluated on the same inputs
(offset CA = (0,1,0), force Fa = (0,0,1), load B absent), disagree:
the manual path returns the zero vector, the vectorized path (1,0,0). -/
theorem manual_vec_mismatch :
    manualM ((0 : ℚ), (1 : ℚ), (0 : ℚ)) ((0 : ℚ), (0 : ℚ), (0 : ℚ))
        ((0 : ℚ), (0 : ℚ), (1 : ℚ)) ((0 : ℚ), (0 : ℚ), (0 : ℚ)) ≠
    vecM ((0 : ℚ), (1 : ℚ), (0 : ℚ)) ((0 : ℚ), (0 : ℚ), (0 : ℚ))
        ((0 : ℚ), (0 : ℚ), (1 : ℚ)) ((0 : ℚ), (0 : ℚ), (0 : ℚ)) := by
  norm_num [manualM, vecM, cross3, Prod.ext_iff]

/-- C2 amended: the manual component formulas agree with the vectorized
computation exactly on inputs whose offsets satisfy
`CAx = CAy = CBx = 0` — the zero pattern of the scenario-1 data, whose
vanishing terms the notebook's manual formulas silently drop. In
particular both paths yield the same moment vector on scenario 1. -/
theorem manual_eq_vec_of_scenario_shape (ca cb fa fb : Vec3)
    (h1 : ca.1 = 0) (h2 : ca.2.1 = 0) (h3 : cb.1 = 0) :
    manualM ca cb fa fb = vecM ca cb fa fb := by
  obtain ⟨cax, cay, caz⟩ := ca
  obtain ⟨cbx, cby, cbz⟩ := cb
  obtain ⟨fax, fay, faz⟩ := fa
  obtain ⟨fbx, fby, fbz⟩ := fb
  dsimp only at h1 h2 h3
  subst h1 h2 h3
  simp only [manualM, vecM, cross3, Prod.mk_add_mk, Prod.mk.injEq]
  refine ⟨by ring, by ring, by ring⟩

/-- Witness for C2 amended: the scenario-1 offsets and forces satisfy
the shape hypotheses, and there the manual and vectorized paths agree. -/
theorem manual_eq_vec_witness :
    ((((0 : ℚ), (0 : ℚ), (1500 : ℚ)) : Vec3).1 = 0 ∧
     (((0 : ℚ), (0 : ℚ), (1500 : ℚ)) : Vec3).2.1 = 0 ∧
     (((0 : ℚ), (800 : ℚ), (1100 : ℚ)) : Vec3).1 = 0) ∧
    manualM ((0 : ℚ), (0 : ℚ), (1500 : ℚ)) ((0 : ℚ), (800 : ℚ), (1100 : ℚ))
        ((-1200 : ℚ), (2000 : ℚ), (-3000 : ℚ)) ((3200 : ℚ), (1200 : ℚ), (-1200 : ℚ)) =
    vecM ((0 : ℚ), (0 : ℚ), (1500 : ℚ)) ((0 : ℚ), (800 : ℚ), (1100 : ℚ))
        ((-1200 : ℚ), (2000 : ℚ), (-3000 : ℚ)) ((3200 : ℚ), (1200 : ℚ), (-1200 : ℚ)) :=
  ⟨⟨rfl, rfl, rfl⟩,
   manual_eq_vec_of_scenario_shape _ _ _ _ rfl rfl rfl⟩

/-- C4: in scenario 2 the applied moment at B is added to `Mc` as a free
vector, `Mc_new = Mc + (-1500000, 2000000, -3200000)`, evaluating to
`(-6780000, 3720000, -5760000)`; the resultant force stays
`(2000, 3200, -4200)`, as the reduction of the two loads (B now
carrying the applied moment) confirms: no positional transformation is
applied to the moment vector. -/
theorem scenario2_moment :
    Mc_new = Mc + ((-1500000 : ℚ), (2000000 : ℚ), (-3200000 : ℚ)) ∧
    Mc_new = ((-6780000 : ℚ), (3720000 : ℚ), (-5760000 : ℚ)) ∧
    reduce point_c [loadA, loadB_m] = .ok ⟨Fc, Mc_new⟩ ∧
    Fc = ((2000 : ℚ), (3200 : ℚ), (-4200 : ℚ)) := by
  refine ⟨rfl, ?_, ?_, ?_⟩ <;>
    norm_num [reduce, loadA, loadB_m, point_a, point_b, point_c, Mc_new, Mc,
      CA, CB, CAx, CAy, CAz, CBx, CBy, CBz, ax, ay, az, bx, by', bz, cx, cy, cz,
      Fc, Fa, Fb, Fax, Fay, Faz, Fbx, Fby, Fbz, cross3, Prod.ext_iff]

/-- C5: the offset in each cross-product term is the displacement from
the reference point to the load point (`CA = A − C`, `CB = B − C`,
componentwise load coordinate minus reference coordinate), taken as the
left operand of the cross product with the force on the right; the
notebook's scenario-1 computation is exactly the `(P_i − reference) × F_i`
instance of the general reduction. -/
theorem offset_convention :
    CA = point_a - point_c ∧
    CB = point_b - point_c ∧
    Mc = cross3 CA Fa + cross3 CB Fb ∧
    reduce point_c [loadA, loadB] = .ok ⟨Fc, Mc⟩ := by
  refine ⟨?_, ?_, rfl, ?_⟩ <;>
    norm_num [reduce, loadA, loadB, point_a, point_b, point_c, Mc,
      CA, CB, CAx, CAy, CAz, CBx, CBy, CBz, ax, ay, az, bx, by', bz, cx, cy, cz,
      Fc, Fa, Fb, Fax, Fay, Faz, Fbx, Fby, Fbz, cross3, Prod.ext_iff, Prod.mk_sub_mk]

/-- C6: if every load's position equals the reference point, the moment
returned by the reduction is the sum of the loads' own applied moments;
every cross-product term is the zero vector. -/
theorem zero_offset_moment (ref : Vec3) (loads : List Load) (r : Resultant)
    (hok : reduce ref loads = .ok r) (hpos : ∀ l ∈ loads, l.pos = ref) :
    r.moment = (loads.map Load.moment).sum := by
  unfold reduce at hok
  split at hok
  · exact absurd hok (by simp)
  · have hmap : (loads.map fun l => l.moment + cross3 (l.pos - ref) l.force) =
        loads.map Load.moment := by
      refine List.map_congr_left fun l hl => ?_
      rw [hpos l hl, sub_self, cross3_zero_left, add_zero]
    injection hok with h
    rw [← h, hmap]

/-- Witness for C6: a single load sitting at the reference point with
applied moment (4,5,6) reduces to exactly that moment. -/
theorem zero_offset_moment_witness :
    (⟨((1 : ℚ), (2 : ℚ), (3 : ℚ)), ((4 : ℚ), (5 : ℚ), (6 : ℚ))⟩ : Resultant).moment =
      (([⟨0, ((1 : ℚ), (2 : ℚ), (3 : ℚ)), ((4 : ℚ), (5 : ℚ), (6 : ℚ))⟩] :
        List Load).map Load.moment).sum :=
  zero_offset_moment 0 [⟨0, ((1 : ℚ), (2 : ℚ), (3 : ℚ)), ((4 : ℚ), (5 : ℚ), (6 : ℚ))⟩]
    ⟨((1 : ℚ), (2 : ℚ), (3 : ℚ)), ((4 : ℚ), (5 : ℚ), (6 : ℚ))⟩
    (by simp [reduce, cross3_zero_left]) (by simp)

/-- C7: the force component of the reduction does not depend on the
reference point — only the moment does. -/
theorem force_reference_invariant (ref1 ref2 : Vec3) (loads : List Load) :
    Except.map Resultant.force (reduce ref1 loads) =
    Except.map Resultant.force (reduce ref2 loads) := by
  by_cases h : loads.isEmpty <;> simp [reduce, h, Except.map]

/-- C8: for any reference point and loads L1, L2, the two-load reduction
succeeds and its force is the vector sum of the forces of the two
singleton reductions. -/
theorem force_additive (ref : Vec3) (L1 L2 : Load) :
    ∃ r12 r1 r2 : Resultant,
      reduce ref [L1, L2] = .ok r12 ∧
      reduce ref [L1] = .ok r1 ∧
      reduce ref [L2] = .ok r2 ∧
      r12.force = r1.force + r2.force := by
  refine ⟨_, _, _, rfl, rfl, rfl, ?_⟩
  simp [reduce]

/-- C9: permuting the load sequence changes neither the resultant force
nor the resultant moment (nor the error behavior) of the reduction. -/
theorem reduce_perm_invariant (ref : Vec3) (l1 l2 : List Load) (h : l1.Perm l2) :
    reduce ref l1 = reduce ref l2 := by
  have hemp : l1.isEmpty = l2.isEmpty := by
    have hl := h.length_eq
    cases l1 <;> cases l2 <;> simp_all
  unfold reduce
  rw [hemp]
  split
  · rfl
  · rw [(h.map Load.force).sum_eq,
      (h.map fun l => l.moment + cross3 (l.pos - ref) l.force).sum_eq]

/-- Witness for C9: swapping the two scenario-1 loads leaves the
reduction unchanged. -/
theorem reduce_perm_invariant_witness :
    reduce point_c [loadA, loadB] = reduce point_c [loadB, loadA] :=
  reduce_perm_invariant point_c [loadA, loadB] [loadB, loadA]
    (List.Perm.swap loadB loadA [])

/-- C10: the reduction fails with `InvalidInput` exactly on the empty
load sequence; on any non-empty sequence it returns a resultant, and on
the empty one it returns no (zero) resultant. -/
theorem reduce_empty_invalid (ref : Vec3) (loads : List Load) :
    reduce ref loads = .error .InvalidInput ↔ loads = [] := by
  cases loads <;> simp [reduce]

end LoadsAtCentroid
